import Mathlib

/-!
Verification of the document-text-extraction and prompt-building core of
`src/app.py` (a Streamlit venture-capital proposal evaluator).

Shallow embedding conventions:
* raw file data is a `List Nat` of byte values; the in-memory `io.BytesIO`
  buffer is the pair of that data with a current read position;
* the optional external parsing libraries (`pypdf.PdfReader`,
  `docx.Document`) and the `openai` client are modelled as oracle fields of
  an environment record: each parse attempt either succeeds with structured
  content or raises, and a raising attempt also reports the stream position
  it leaves the buffer at (the libraries read from the buffer, so a failed
  open generally moves the position);
* Python exceptions are modelled with `Except`: a `try/except` block is the
  pattern match on the `Except` value of its body;
* `bytes.decode("utf-8", errors="ignore")` is modelled by an explicit UTF-8
  decoder that drops ill-formed subsequences (maximal-subpart convention,
  as CPython does);
* `str.strip()` is modelled by `pyStrip`, dropping the Python whitespace
  characters from both ends.
-/

/-- Byte values of a file, as handed to `extract_text` via `io.BytesIO`. -/
abbrev Bytes := List Nat

/-- Is `b` a UTF-8 continuation byte (`0x80..0xBF`)? -/
def isCont (b : Nat) : Bool := 0x80 ≤ b && b ≤ 0xBF

/-- Decoder for `bytes.decode("utf-8", errors="ignore")`: well-formed UTF-8
sequences become code points, ill-formed bytes are skipped (for a truncated
multi-byte sequence, the maximal valid subpart is skipped as a unit, matching
CPython).  Overlong forms, surrogates and values above `U+10FFFF` are
rejected by the range checks on the first continuation byte. -/
def utf8Ignore : List Nat → List Nat
  | [] => []
  | b0 :: tl =>
    if b0 < 0x80 then
      b0 :: utf8Ignore tl
    else if 0xC2 ≤ b0 && b0 ≤ 0xDF then
      match tl with
      | [] => []
      | b1 :: tl1 =>
        if isCont b1 then ((b0 - 0xC0) * 0x40 + (b1 - 0x80)) :: utf8Ignore tl1
        else utf8Ignore (b1 :: tl1)
    else if 0xE0 ≤ b0 && b0 ≤ 0xEF then
      match tl with
      | [] => []
      | b1 :: tl1 =>
        -- the admissible range of the first continuation byte depends on b0
        -- (this is what excludes overlong forms and surrogates)
        if (if b0 = 0xE0 then 0xA0 ≤ b1 && b1 ≤ 0xBF
            else if b0 = 0xED then 0x80 ≤ b1 && b1 ≤ 0x9F
            else isCont b1) then
          match tl1 with
          | [] => []
          | b2 :: tl2 =>
            if isCont b2 then
              ((b0 - 0xE0) * 0x1000 + (b1 - 0x80) * 0x40 + (b2 - 0x80)) :: utf8Ignore tl2
            else utf8Ignore (b2 :: tl2)
        else utf8Ignore (b1 :: tl1)
    else if 0xF0 ≤ b0 && b0 ≤ 0xF4 then
      match tl with
      | [] => []
      | b1 :: tl1 =>
        if (if b0 = 0xF0 then 0x90 ≤ b1 && b1 ≤ 0xBF
            else if b0 = 0xF4 then 0x80 ≤ b1 && b1 ≤ 0x8F
            else isCont b1) then
          match tl1 with
          | [] => []
          | b2 :: tl2 =>
            if isCont b2 then
              match tl2 with
              | [] => []
              | b3 :: tl3 =>
                if isCont b3 then
                  ((b0 - 0xF0) * 0x40000 + (b1 - 0x80) * 0x1000
                    + (b2 - 0x80) * 0x40 + (b3 - 0x80)) :: utf8Ignore tl3
                else utf8Ignore (b3 :: tl3)
            else utf8Ignore (b2 :: tl2)
        else utf8Ignore (b1 :: tl1)
    else
      -- invalid start byte (0x80..0xC1, 0xF5..): dropped
      utf8Ignore tl

/-- The string produced by `data.decode("utf-8", errors="ignore")`. -/
def decodeUtf8Str (data : Bytes) : String :=
  String.mk ((utf8Ignore data).map Char.ofNat)

/-- The characters `str.strip()` removes: the Python whitespace set. -/
def isPySpace (c : Char) : Bool :=
  let n := c.toNat
  (n == 0x20) || (0x09 ≤ n && n ≤ 0x0D) || (0x1C ≤ n && n ≤ 0x1F)
    || (n == 0x85) || (n == 0xA0) || (n == 0x1680)
    || (0x2000 ≤ n && n ≤ 0x200A) || (n == 0x2028) || (n == 0x2029)
    || (n == 0x202F) || (n == 0x205F) || (n == 0x3000)

/-- `s.strip()`: remove leading and trailing Python whitespace. -/
def pyStrip (s : String) : String :=
  String.mk ((s.data.dropWhile isPySpace).rdropWhile isPySpace)

/-- Outcome of `page.extract_text()` for one PDF page: the call either
raises, or returns `Optional[str]` (`None` when the page has no text layer).
The code appends `page.extract_text() or ""`, so `None` contributes `""`. -/
inductive PageAttempt where
  | throws
  | extracted (t : Option String)
deriving DecidableEq, Repr

/-- Outcome of `PdfReader(file_buffer)` plus the iteration over
`reader.pages`: either the open/iteration raises, leaving the buffer at
position `pos` (the library reads the stream before failing), or it yields
the list of pages. -/
inductive PdfOutcome where
  | openFail (pos : Nat)
  | ok (pages : List PageAttempt)

/-- Outcome of `docx.Document(file_buffer)`: either the open raises, leaving
the buffer at position `pos`, or it yields the paragraph texts in document
order. -/
inductive DocxOutcome where
  | openFail (pos : Nat)
  | ok (paras : List String)

/-- The ambient import state and external libraries of `app.py`:
`pdfAvailable` is `PdfReader is not None`, `docxAvailable` is
`Document is not None`; the parse fields are the oracles for the library
calls, applied to the full byte content (both branches run right after
`file_buffer.seek(0)`, so the libraries always start reading at 0). -/
structure Env where
  pdfAvailable : Bool
  docxAvailable : Bool
  pdfParse : Bytes → PdfOutcome
  docxParse : Bytes → DocxOutcome

/-- Contribution of one page to `pages_text`: a raising page is skipped by
the inner `except: continue`; otherwise `page.extract_text() or ""` is
appended. -/
def pageContribution : PageAttempt → Option String
  | .throws => none
  | .extracted t => some (t.getD "")

/-- The list `pages_text` built by the PDF branch. -/
def pdfPagesTexts (pages : List PageAttempt) : List String :=
  pages.filterMap pageContribution

/-- Body of the `try` in the PDF branch of `extract_text`:
`"\n".join(pages_text).strip()`, or the exception from
`PdfReader(file_buffer)` / the page iteration (carrying the stream position
it leaves). -/
def pdf_branch (env : Env) (data : Bytes) : Except Nat String :=
  match env.pdfParse data with
  | .ok pages => .ok (pyStrip (String.intercalate "\n" (pdfPagesTexts pages)))
  | .openFail p => .error p

/-- Body of the `try` in the DOCX branch: `"\n".join(paragraphs).strip()`,
or the exception from `Document(file_buffer)`. -/
def docx_branch (env : Env) (data : Bytes) : Except Nat String :=
  match env.docxParse data with
  | .ok paras => .ok (pyStrip (String.intercalate "\n" paras))
  | .openFail p => .error p

/-- The final fallback of `extract_text`: `file_buffer.read()` from the
current position `p`, then `.decode("utf-8", errors="ignore")`.  Neither
step raises, so the guarding `try/except` never returns its `""`; the read
leaves the position at the end of the data. -/
def plain_fallback (data : Bytes) (p : Nat) : Except Unit String × Nat :=
  (.ok (decodeUtf8Str (data.drop p)), data.length)

/-- MIME type of the PDF branch. -/
def PDF_MIME : String := "application/pdf"

/-- First MIME type of the DOCX branch. -/
def DOCX_MIME : String :=
  "application/vnd.openxmlformats-officedocument.wordprocessingml.document"

/-- Second MIME type of the DOCX branch. -/
def MSWORD_MIME : String := "application/msword"

/-- `extract_text(file_buffer, mime_type)` with explicit exception and
stream-position bookkeeping.  The result pairs the `Except` value of the
function body (an `error` would be an uncaught exception escaping to the
caller) with the final stream position.  Control flow of the source:
`file_buffer.seek(0)`; the PDF `if` with its `try/except: pass`; the DOCX
`if` with its `try/except: pass`; the plain-text fallback.  When the PDF
branch raises, the DOCX `if` condition is re-tested but is false (the MIME
type is `application/pdf`), so control reaches the fallback directly with
the position the PDF library left. -/
def extract_text_run (env : Env) (data : Bytes) (mime : String) :
    Except Unit String × Nat :=
  -- file_buffer.seek(0)
  let pos : Nat := 0
  if mime = PDF_MIME ∧ env.pdfAvailable = true then
    match pdf_branch env data with
    | .ok s => (.ok s, pos)
    | .error p => plain_fallback data p
  else if (mime = DOCX_MIME ∨ mime = MSWORD_MIME) ∧ env.docxAvailable = true then
    match docx_branch env data with
    | .ok s => (.ok s, pos)
    | .error p => plain_fallback data p
  else
    plain_fallback data pos

/-- The string `extract_text` returns (the `error` arm is unreachable, as
proved below; it is mapped to `""` only to give the function type `String`). -/
def extract_text (env : Env) (data : Bytes) (mime : String) : String :=
  match (extract_text_run env data mime).1 with
  | .ok s => s
  | .error _ => ""

/-- The constant instructional block `criteria_description` of
`build_prompt`, fragment for fragment as in the source. -/
def criteria_description : String :=
  "You are an experienced venture‑capital analyst.  Based on the FNR JUMP "
  ++ "Programme review guidelines, evaluate the following project proposal.  "
  ++ "Assess it against these criteria:\n"
  ++ "1. Novelty – is the technology or concept novel/disruptive, and is there "
  ++ "enough evidence to show scientific robustness?\n"
  ++ "2. Market/customer understanding and commercialisation strengths (for "
  ++ "commercial projects) – how well does the team understand the market and "
  ++ "target customers, and what are the plans for bringing the product to market?\n"
  ++ "3. Social needs and methodology (for social impact projects) – has the "
  ++ "proposal identified a clear societal need and provided a suitable methodology "
  ++ "for addressing it?\n"
  ++ "4. Impact magnitude – what is the expected scale of impact?\n"
  ++ "5. Intellectual property and validation – what is the status of IP and "
  ++ "technical validation?\n"
  ++ "6. Team competences and expertise – assess the team’s experience and the "
  ++ "fit of any entrepreneur in residence (EiR) if applicable.\n\n"
  ++ "Provide a structured analysis highlighting strengths, weaknesses, risks and "
  ++ "opportunities for each criterion.  Offer recommendations for improvement "
  ++ "but **do not** make a final funding decision.  Do **not** use sensitive "
  ++ "personal attributes (e.g. race, gender, health) in your reasoning.  "
  ++ "Instead focus on objective, project‑related factors.  At the end, "
  ++ "summarise the overall investment outlook."

/-- `build_prompt(document_text)`: the f-string
`f"{criteria_description}\n\nHere is the proposal:\n\n{document_text.strip()}"`. -/
def build_prompt (document_text : String) : String :=
  criteria_description ++ "\n\nHere is the proposal:\n\n" ++ pyStrip document_text

/-- Outcome of the `openai.ChatCompletion.create` call together with the
`response[...]` indexing: either some step raises, or the message content
string is obtained. -/
inductive ApiOutcome where
  | throws
  | response (content : String)

/-- Availability of the `openai` module and the oracle for the chat call,
as a function of the prompt string sent. -/
structure ApiEnv where
  openaiAvailable : Bool
  call : String → ApiOutcome

/-- Events observable from `evaluate_proposal`, to state what the guard
clauses skip: building the prompt and issuing the API request. -/
inductive ApiEvent where
  | promptBuilt
  | apiCalled
deriving DecidableEq, Repr

/-- `evaluate_proposal(document_text, api_key)`: returns the model text or
`None`, paired with the trace of observable events.  `if not api_key`
tests Python falsiness, which for a string is emptiness.  On a successful
call the content is `.strip()`-ped; an exception in the call or the
response indexing is caught and yields `None`. -/
def evaluate_proposal (env : ApiEnv) (document_text api_key : String) :
    Option String × List ApiEvent :=
  if env.openaiAvailable = false then
    (none, [])
  else if api_key = "" then
    (none, [])
  else
    let prompt := build_prompt document_text
    match env.call prompt with
    | .response c => (some (pyStrip c), [.promptBuilt, .apiCalled])
    | .throws => (none, [.promptBuilt, .apiCalled])

/-- Lower-casing a string character by character, to state case-insensitive
containment. -/
def strLower (s : String) : String := String.mk (s.data.map Char.toLower)

/-- Naive executable substring test: some drop of the haystack starts with
the pattern. -/
def containsSub (hay pat : String) : Bool :=
  (List.range (hay.data.length + 1)).any fun i => pat.data.isPrefixOf (hay.data.drop i)

/-! ### Concrete instances used to evaluate the functions -/

/-- Environment with neither parsing library importable (both `import`
attempts in the source failed): every upload takes the plain-text path. -/
def trivEnv : Env := ⟨false, false, fun _ => .openFail 0, fun _ => .openFail 0⟩

/-- Environment where `pypdf` is importable but `PdfReader` raises on every
input after having consumed `p` bytes of the stream. -/
def pdfFailEnv (p : Nat) : Env :=
  ⟨true, false, fun _ => .openFail p, fun _ => .openFail 0⟩

/-- Environment where `pypdf` is importable and parses every input into the
given fixed page list. -/
def pdfPagesEnv (pages : List PageAttempt) : Env :=
  ⟨true, false, fun _ => .ok pages, fun _ => .openFail 0⟩

/-- Environment where `python-docx` is importable and parses every input
into the given fixed paragraph list. -/
def docxParasEnv (paras : List String) : Env :=
  ⟨false, true, fun _ => .openFail 0, fun _ => .ok paras⟩

/-- Environment where `python-docx` is importable but `Document` raises on
every input after having consumed `p` bytes of the stream. -/
def docxFailEnv (p : Nat) : Env :=
  ⟨false, true, fun _ => .openFail 0, fun _ => .openFail p⟩

/-- The UTF-8 bytes of `"Hello world"`. -/
def helloWorldBytes : Bytes := [72, 101, 108, 108, 111, 32, 119, 111, 114, 108, 100]

/-- The UTF-8 bytes of `"HELLO"`. -/
def helloCapsBytes : Bytes := [72, 69, 76, 76, 79]

/-! ### Helper lemmas -/

/-- Dropping a prefix by `p` in a list that has no such prefix left is the
identity, also after a right-drop. -/
theorem dropWhile_rdropWhile_of (p : Char → Bool) (m : List Char)
    (hm : m.dropWhile p = m) :
    (m.rdropWhile p).dropWhile p = m.rdropWhile p := by
  have hpre := List.rdropWhile_prefix p m
  generalize hr : m.rdropWhile p = r at hpre ⊢
  obtain ⟨t, ht⟩ := hpre
  subst ht
  cases r with
  | nil => simp [List.dropWhile]
  | cons a r' =>
    simp only [List.cons_append] at hm
    rw [List.dropWhile_cons] at hm ⊢
    by_cases hpa : p a
    · exfalso
      rw [if_pos hpa] at hm
      have hlen := congrArg List.length hm
      have hb := (List.dropWhile_suffix p (l := r' ++ t)).length_le
      simp [List.length_append] at hlen hb
      omega
    · rw [if_neg hpa]

/-- `s.strip()` is idempotent: a stripped string has no leading or trailing
Python whitespace left to remove. -/
theorem pyStrip_idem (s : String) : pyStrip (pyStrip s) = pyStrip s := by
  simp only [pyStrip]
  rw [dropWhile_rdropWhile_of isPySpace _ (List.dropWhile_idempotent _ _)]
  rw [List.rdropWhile_idempotent]

/-- The body of `extract_text` ends in `Except.ok` on every path: each
parser exception is caught by its `except` clause and the fallback itself
cannot fail. -/
theorem extract_run_ok (env : Env) (data : Bytes) (mime : String) :
    ∃ s, (extract_text_run env data mime).1 = Except.ok s := by
  unfold extract_text_run plain_fallback
  split
  · cases hb : pdf_branch env data with
    | ok s => exact ⟨s, by simp [hb]⟩
    | error p => exact ⟨decodeUtf8Str (data.drop p), by simp [hb]⟩
  · split
    · cases hb : docx_branch env data with
      | ok s => exact ⟨s, by simp [hb]⟩
      | error p => exact ⟨decodeUtf8Str (data.drop p), by simp [hb]⟩
    · exact ⟨_, rfl⟩

/-- Evaluation of the PDF branch when the document opens and iterates. -/
theorem extract_pdf_ok_eq (env : Env) (data : Bytes) (pages : List PageAttempt)
    (hav : env.pdfAvailable = true) (hp : env.pdfParse data = .ok pages) :
    extract_text env data "application/pdf"
      = pyStrip (String.intercalate "\n" (pdfPagesTexts pages)) := by
  simp [extract_text, extract_text_run, pdf_branch, PDF_MIME, hav, hp]

/-- Evaluation of the PDF branch when the open raises after consuming `p`
bytes: the fallback decodes the remaining suffix. -/
theorem extract_pdf_fail_eq (env : Env) (data : Bytes) (p : Nat)
    (hav : env.pdfAvailable = true) (hp : env.pdfParse data = .openFail p) :
    extract_text env data "application/pdf" = decodeUtf8Str (data.drop p) := by
  simp [extract_text, extract_text_run, pdf_branch, plain_fallback, PDF_MIME, hav, hp]

/-- Evaluation of the DOCX branch when the document opens. -/
theorem extract_docx_ok_eq (env : Env) (data : Bytes) (paras : List String)
    (mime : String) (hm : mime = DOCX_MIME ∨ mime = MSWORD_MIME)
    (hav : env.docxAvailable = true) (hp : env.docxParse data = .ok paras) :
    extract_text env data mime = pyStrip (String.intercalate "\n" paras) := by
  have hne : ¬ (mime = PDF_MIME) := by
    rcases hm with h | h <;> subst h <;> simp [PDF_MIME, DOCX_MIME, MSWORD_MIME]
  simp [extract_text, extract_text_run, docx_branch, hne, hm, hav, hp]

/-- Evaluation of the DOCX branch when the open raises after consuming `p`
bytes. -/
theorem extract_docx_fail_eq (env : Env) (data : Bytes) (p : Nat)
    (mime : String) (hm : mime = DOCX_MIME ∨ mime = MSWORD_MIME)
    (hav : env.docxAvailable = true) (hp : env.docxParse data = .openFail p) :
    extract_text env data mime = decodeUtf8Str (data.drop p) := by
  have hne : ¬ (mime = PDF_MIME) := by
    rcases hm with h | h <;> subst h <;> simp [PDF_MIME, DOCX_MIME, MSWORD_MIME]
  simp [extract_text, extract_text_run, docx_branch, plain_fallback, hne, hm, hav, hp]

/-- Evaluation of `extract_text` for any MIME type outside the three
recognized ones: the plain-text fallback reads from position 0. -/
theorem extract_other_eq (env : Env) (data : Bytes) (mime : String)
    (h1 : mime ≠ "application/pdf")
    (h2 : mime ≠ "application/vnd.openxmlformats-officedocument.wordprocessingml.document")
    (h3 : mime ≠ "application/msword") :
    extract_text env data mime = decodeUtf8Str data := by
  simp [extract_text, extract_text_run, plain_fallback, PDF_MIME, DOCX_MIME,
    MSWORD_MIME, h1, h2, h3]

set_option maxRecDepth 20000

/-- C1: for every byte input and every declared media type, the body of
`extract_text` finishes with `Except.ok` of the returned string: it
terminates, never lets an exception escape (parser failures, page failures
and non-UTF-8 bytes included), and always yields a string. -/
theorem C1_extract_total_never_raises (env : Env) (data : Bytes) (mime : String) :
    (extract_text_run env data mime).1 = Except.ok (extract_text env data mime) := by
  obtain ⟨s, hs⟩ := extract_run_ok env data mime
  unfold extract_text
  rw [hs]

/-- C2 counterexample: with no parsing libraries, media type `text/plain`
and input the single space byte `0x20`, `extract_text` returns `" "`: the
result is not trimmed and not empty although every path yielded only
whitespace. -/
theorem C2_cex_fallback_not_trimmed :
    extract_text trivEnv [32] "text/plain" = " "
      ∧ pyStrip " " = "" ∧ (" " : String) ≠ "" :=
  ⟨by decide, by decide, by decide⟩

/-- C2 (amended): the PDF and DOCX branch results are trimmed (stripping
them again changes nothing), while the plain-text fallback returns the
permissive UTF-8 decode untrimmed. -/
theorem C2_amended_trimming :
    (∀ env data pages, env.pdfAvailable = true →
      env.pdfParse data = PdfOutcome.ok pages →
      pyStrip (extract_text env data "application/pdf")
        = extract_text env data "application/pdf")
  ∧ (∀ env data paras mime, (mime = DOCX_MIME ∨ mime = MSWORD_MIME) →
      env.docxAvailable = true → env.docxParse data = DocxOutcome.ok paras →
      pyStrip (extract_text env data mime) = extract_text env data mime)
  ∧ (∀ env data mime, mime ≠ "application/pdf" → mime ≠ DOCX_MIME →
      mime ≠ MSWORD_MIME → extract_text env data mime = decodeUtf8Str data) := by
  refine ⟨?_, ?_, ?_⟩
  · intro env data pages hav hp
    rw [extract_pdf_ok_eq env data pages hav hp, pyStrip_idem]
  · intro env data paras mime hm hav hp
    rw [extract_docx_ok_eq env data paras mime hm hav hp, pyStrip_idem]
  · intro env data mime h1 h2 h3
    exact extract_other_eq env data mime h1 h2 h3

theorem C2_amended_witness :
    pyStrip (extract_text (pdfPagesEnv [PageAttempt.extracted (some " a ")])
        helloWorldBytes "application/pdf")
      = extract_text (pdfPagesEnv [PageAttempt.extracted (some " a ")])
          helloWorldBytes "application/pdf"
  ∧ pyStrip (extract_text (docxParasEnv ["x"]) helloWorldBytes "application/msword")
      = extract_text (docxParasEnv ["x"]) helloWorldBytes "application/msword"
  ∧ extract_text trivEnv [32, 97, 32] "text/plain" = decodeUtf8Str [32, 97, 32] :=
  ⟨C2_amended_trimming.1 _ _ _ rfl rfl,
   C2_amended_trimming.2.1 _ _ _ _ (Or.inr rfl) rfl rfl,
   C2_amended_trimming.2.2 _ _ _ (by decide) (by decide) (by decide)⟩

/-- C3 counterexample: a PDF open that fails after consuming 2 bytes of
`"HELLO"` leaves the stream at offset 2, and the fallback decodes only
`"LLO"`, not the full byte content. -/
theorem C3_cex_partial_offset_read :
    extract_text (pdfFailEnv 2) helloCapsBytes "application/pdf" = "LLO"
  ∧ decodeUtf8Str helloCapsBytes = "HELLO"
  ∧ extract_text (pdfFailEnv 2) helloCapsBytes "application/pdf"
      ≠ decodeUtf8Str helloCapsBytes :=
  ⟨by decide, by decide, by decide⟩

/-- C3 (amended): the stream position is reset to the beginning once, at
entry, before the first attempt; a failed format-specific open leaves the
stream at whatever position the parser stopped at, and the fallback decode
consumes only the bytes from that position on.  When no format-specific
branch runs, the fallback reads from position 0, i.e. the full content. -/
theorem C3_amended_stream_positions :
    (∀ env data p, env.pdfAvailable = true →
      env.pdfParse data = PdfOutcome.openFail p →
      extract_text env data "application/pdf" = decodeUtf8Str (data.drop p))
  ∧ (∀ env data p mime, (mime = DOCX_MIME ∨ mime = MSWORD_MIME) →
      env.docxAvailable = true → env.docxParse data = DocxOutcome.openFail p →
      extract_text env data mime = decodeUtf8Str (data.drop p))
  ∧ (∀ env data mime, mime ≠ "application/pdf" → mime ≠ DOCX_MIME →
      mime ≠ MSWORD_MIME → extract_text env data mime = decodeUtf8Str (data.drop 0)) := by
  refine ⟨?_, ?_, ?_⟩
  · exact fun env data p hav hp => extract_pdf_fail_eq env data p hav hp
  · exact fun env data p mime hm hav hp => extract_docx_fail_eq env data p mime hm hav hp
  · intro env data mime h1 h2 h3
    rw [List.drop_zero]
    exact extract_other_eq env data mime h1 h2 h3

theorem C3_amended_witness :
    extract_text (pdfFailEnv 2) helloWorldBytes "application/pdf"
      = decodeUtf8Str (helloWorldBytes.drop 2)
  ∧ extract_text (docxFailEnv 3) helloWorldBytes "application/msword"
      = decodeUtf8Str (helloWorldBytes.drop 3)
  ∧ extract_text trivEnv helloWorldBytes "text/plain"
      = decodeUtf8Str (helloWorldBytes.drop 0) :=
  ⟨C3_amended_stream_positions.1 _ _ _ rfl rfl,
   C3_amended_stream_positions.2.1 _ _ _ _ (Or.inr rfl) rfl rfl,
   C3_amended_stream_positions.2.2 _ _ _ (by decide) (by decide) (by decide)⟩

/-- C4 counterexample: `"Hello world"` bytes with a PDF open failing after
6 consumed bytes: the result is `"world"`, not the fallback decoding of the
full raw bytes. -/
theorem C4_cex_failed_pdf_suffix_decode :
    extract_text (pdfFailEnv 6) helloWorldBytes "application/pdf" = "world"
  ∧ decodeUtf8Str helloWorldBytes = "Hello world"
  ∧ extract_text (pdfFailEnv 6) helloWorldBytes "application/pdf"
      ≠ decodeUtf8Str helloWorldBytes :=
  ⟨by decide, by decide, by decide⟩

/-- C4 (amended): when the PDF open/parse fails, `extract_text` returns the
permissive UTF-8 decode of the bytes remaining from the stream position the
failed attempt left; this equals the decode of the full raw content exactly
in the case that the parser left the position at 0. -/
theorem C4_amended_pdf_fallback (env : Env) (data : Bytes) (p : Nat)
    (hav : env.pdfAvailable = true) (hp : env.pdfParse data = PdfOutcome.openFail p) :
    extract_text env data "application/pdf" = decodeUtf8Str (data.drop p)
  ∧ (p = 0 → extract_text env data "application/pdf" = decodeUtf8Str data) := by
  refine ⟨extract_pdf_fail_eq env data p hav hp, fun h0 => ?_⟩
  subst h0
  simpa using extract_pdf_fail_eq env data 0 hav hp

theorem C4_amended_witness :
    extract_text (pdfFailEnv 0) helloCapsBytes "application/pdf"
      = decodeUtf8Str (helloCapsBytes.drop 0)
  ∧ (0 = 0 → extract_text (pdfFailEnv 0) helloCapsBytes "application/pdf"
      = decodeUtf8Str helloCapsBytes) :=
  C4_amended_pdf_fallback (pdfFailEnv 0) helloCapsBytes 0 rfl rfl

/-- C5: when the PDF document opens and page k (the one between `pre` and
`post`) raises during text extraction, the result equals the extraction of
the same document without page k: the join of all other pages in original
order, with page k contributing nothing, and no exception escapes. -/
theorem C5_page_failure_isolated (env env2 : Env) (data : Bytes)
    (pre post : List PageAttempt)
    (hav : env.pdfAvailable = true) (hav2 : env2.pdfAvailable = true)
    (hp : env.pdfParse data = PdfOutcome.ok (pre ++ PageAttempt.throws :: post))
    (hp2 : env2.pdfParse data = PdfOutcome.ok (pre ++ post)) :
    extract_text env data "application/pdf" = extract_text env2 data "application/pdf"
  ∧ extract_text env data "application/pdf"
      = pyStrip (String.intercalate "\n" (pdfPagesTexts (pre ++ post)))
  ∧ (extract_text_run env data "application/pdf").1
      = Except.ok (extract_text env data "application/pdf") := by
  have h1 := extract_pdf_ok_eq env data _ hav hp
  have h2 := extract_pdf_ok_eq env2 data _ hav2 hp2
  have hft : pdfPagesTexts (pre ++ PageAttempt.throws :: post) = pdfPagesTexts (pre ++ post) := by
    simp [pdfPagesTexts, List.filterMap_append, List.filterMap_cons, pageContribution]
  refine ⟨?_, ?_, ?_⟩
  · rw [h1, h2, hft]
  · rw [h1, hft]
  · obtain ⟨s, hs⟩ := extract_run_ok env data "application/pdf"
    rw [hs]
    unfold extract_text
    rw [hs]

theorem C5_witness :
    extract_text (pdfPagesEnv ([PageAttempt.extracted (some "a")]
        ++ PageAttempt.throws :: [PageAttempt.extracted (some "b")]))
      helloCapsBytes "application/pdf" = "a\nb" :=
  ((C5_page_failure_isolated
      (pdfPagesEnv ([PageAttempt.extracted (some "a")]
        ++ PageAttempt.throws :: [PageAttempt.extracted (some "b")]))
      (pdfPagesEnv ([PageAttempt.extracted (some "a")] ++ [PageAttempt.extracted (some "b")]))
      helloCapsBytes [PageAttempt.extracted (some "a")] [PageAttempt.extracted (some "b")]
      rfl rfl rfl rfl).2.1).trans (by decide)

/-- C6: `build_prompt text` is the fixed instructional header followed by
the literal separator and the stripped input text at the end; the header
contains the token "novelty" case-insensitively, and `build_prompt ""`
still carries the full header verbatim. -/
theorem C6_build_prompt_fixed_header (text : String) :
    build_prompt text
      = criteria_description ++ "\n\nHere is the proposal:\n\n" ++ pyStrip text
  ∧ containsSub (strLower criteria_description) "novelty" = true
  ∧ build_prompt "" = criteria_description ++ "\n\nHere is the proposal:\n\n" := by
  refine ⟨rfl, by decide, ?_⟩
  simp [build_prompt, pyStrip]

/-- C7: `build_prompt` is pure and deterministic: equal inputs give equal
(byte-identical) outputs, and any two outputs share the fixed header and
separator as a common prefix, differing only in the trailing segment. -/
theorem C7_build_prompt_pure (t1 t2 : String) :
    (t1 = t2 → build_prompt t1 = build_prompt t2)
  ∧ ∃ r1 r2 : String,
      build_prompt t1 = (criteria_description ++ "\n\nHere is the proposal:\n\n") ++ r1
      ∧ build_prompt t2 = (criteria_description ++ "\n\nHere is the proposal:\n\n") ++ r2 := by
  refine ⟨fun h => by rw [h], pyStrip t1, pyStrip t2, ?_, ?_⟩
  · simp [build_prompt, String.append_assoc]
  · simp [build_prompt, String.append_assoc]

theorem C7_witness :
    build_prompt "alpha" = build_prompt "alpha"
  ∧ ∃ r1 r2 : String,
      build_prompt "alpha" = (criteria_description ++ "\n\nHere is the proposal:\n\n") ++ r1
      ∧ build_prompt "beta" = (criteria_description ++ "\n\nHere is the proposal:\n\n") ++ r2 :=
  ⟨(C7_build_prompt_pure "alpha" "alpha").1 rfl, (C7_build_prompt_pure "alpha" "beta").2⟩

/-- C8: any media type other than the three recognized ones goes directly
to the plain-text fallback: the permissive UTF-8 decode of the full bytes. -/
theorem C8_unrecognized_mime_plain_fallback (env : Env) (data : Bytes) (mime : String)
    (h1 : mime ≠ "application/pdf")
    (h2 : mime ≠ "application/vnd.openxmlformats-officedocument.wordprocessingml.document")
    (h3 : mime ≠ "application/msword") :
    extract_text env data mime = decodeUtf8Str data :=
  extract_other_eq env data mime h1 h2 h3

theorem C8_witness :
    extract_text trivEnv helloWorldBytes "text/plain" = "Hello world" :=
  (C8_unrecognized_mime_plain_fallback trivEnv helloWorldBytes "text/plain"
    (by decide) (by decide) (by decide)).trans (by decide)

/-- C9: a successfully opened and iterated PDF yields the trimmed join of
the page texts, with no UTF-8 fallback involved: in particular a valid PDF
with no extractable text yields the empty string even when its raw bytes
decode to non-empty text. -/
theorem C9_pdf_success_no_fallback :
    (∀ env data pages, env.pdfAvailable = true →
      env.pdfParse data = PdfOutcome.ok pages →
      extract_text env data "application/pdf"
        = pyStrip (String.intercalate "\n" (pdfPagesTexts pages)))
  ∧ (∃ env data, env.pdfAvailable = true
      ∧ env.pdfParse data = PdfOutcome.ok [PageAttempt.extracted none]
      ∧ extract_text env data "application/pdf" = ""
      ∧ decodeUtf8Str data ≠ "") := by
  refine ⟨fun env data pages hav hp => extract_pdf_ok_eq env data pages hav hp,
    pdfPagesEnv [PageAttempt.extracted none], helloWorldBytes, rfl, rfl, by decide, by decide⟩

theorem C9_witness :
    extract_text (pdfPagesEnv [PageAttempt.extracted none]) helloWorldBytes
      "application/pdf" = "" :=
  (C9_pdf_success_no_fallback.1 _ _ _ rfl rfl).trans (by decide)

/-- C10: when the openai module is unavailable or the api key is the empty
string, `evaluate_proposal` returns `None` with an empty event trace: no
prompt is built and no API request is issued. -/
theorem C10_guard_clauses_no_side_effects (env : ApiEnv) (t k : String)
    (h : env.openaiAvailable = false ∨ k = "") :
    evaluate_proposal env t k = (none, []) := by
  rcases h with h | h
  · simp [evaluate_proposal, h]
  · subst h
    by_cases ha : env.openaiAvailable = false <;> simp [evaluate_proposal, ha]

theorem C10_witness :
    evaluate_proposal ⟨false, fun _ => ApiOutcome.throws⟩ "doc" "sk-key" = (none, []) :=
  C10_guard_clauses_no_side_effects _ _ _ (Or.inl rfl)
